import Mathlib

/-!
Verification of the durable delayed-job scheduler (bot.py and bot1.py)
against its natural-language specification.

Timestamps and delays are modelled as integers (seconds). The sqlite
schedules table is modelled as a list of JobRecord values; the job queue
of the telegram runtime is modelled as a list of TimerEntry values. The
side effects a handler performs, in program order, are modelled as a
list of Effect values.
-/

/-- The data dictionary a job carries into the job queue
(bot.py, the data argument of job_queue.run_once). -/
structure JobData where
  chat_id : Int
  command : String
  details_command : String
  job_id : String
deriving DecidableEq, Repr

/-- One armed timer in the job queue: its name, the relative delay
passed as the when argument, and the carried data. -/
structure TimerEntry where
  name : String
  whenDelay : Int
  data : JobData
deriving DecidableEq, Repr

/-- One row of the schedules table (bot.py init_db): job_id primary key,
chat_id, the two companion command strings, and the absolute run_at time. -/
structure JobRecord where
  job_id : String
  chat_id : Int
  command_to_send : String
  details_command_to_send : String
  run_at : Int
deriving DecidableEq, Repr

/-- A side effect performed by a handler, in program order. -/
inductive Effect where
  | armTimer : TimerEntry → Effect
  | insertStore : JobRecord → Effect
  | deleteStore : String → Effect
  | sendMessage : Int → String → Effect
  | replyText : String → Effect
deriving DecidableEq, Repr

/-- Outcome of the schedule handler of bot.py. -/
inductive ScheduleOutcome where
  | unauthorized
  | parseError
  | scheduled : JobRecord → TimerEntry → ScheduleOutcome
deriving DecidableEq, Repr

/-- Outcome of the set_reminder handler of bot1.py. -/
inductive ReminderOutcome where
  | usageError
  | delayTooSmall
  | reminderSet : Int → Int → String → ReminderOutcome
deriving DecidableEq, Repr

/-- Numeric value of a list of decimal digit characters. -/
def digitsVal (cs : List Char) : Nat :=
  cs.foldl (fun a c => a * 10 + (c.toNat - Char.toNat (Char.ofNat 48))) 0

/-- Model of the Python builtin int applied to a string: an optional
sign followed by one or more decimal digits parses to the signed value,
anything else raises ValueError (returned here as none). Whitespace
stripping, underscores and non-ASCII digits are not modelled. -/
def parseInt (s : String) : Option Int :=
  match s.data with
  | [] => none
  | c :: rest =>
    if c = Char.ofNat 45 then
      if rest ≠ [] ∧ rest.all Char.isDigit then some (-(digitsVal rest : Int)) else none
    else if c = Char.ofNat 43 then
      if rest ≠ [] ∧ rest.all Char.isDigit then some (digitsVal rest : Int) else none
    else
      if (c :: rest).all Char.isDigit then some (digitsVal (c :: rest) : Int) else none

/-- Model of the Python str.isdigit method restricted to ASCII: true on
a nonempty all-digit string, false otherwise. -/
def pyIsDigit (s : String) : Bool :=
  !s.data.isEmpty && s.data.all Char.isDigit

/-- Embedding of add_schedule_to_db (bot.py lines 70 to 79): INSERT of
one row into the schedules table. -/
def add_schedule_to_db (r : JobRecord) (store : List JobRecord) : List JobRecord :=
  store ++ [r]

/-- Embedding of remove_schedule_from_db (bot.py lines 81 to 87):
DELETE FROM schedules WHERE job_id matches. -/
def remove_schedule_from_db (jobId : String) (store : List JobRecord) : List JobRecord :=
  store.filter (fun r => r.job_id ≠ jobId)

/-- Embedding of get_pending_schedules (bot.py lines 89 to 96):
SELECT of all rows with run_at strictly greater than the current time,
which is passed here explicitly as asOf. -/
def get_pending_schedules (asOf : Int) (store : List JobRecord) : List JobRecord :=
  store.filter (fun r => asOf < r.run_at)

/-- The reminder header message sent first by alarm (bot.py line 105),
with the MarkdownV2 escapes elided. -/
def reminder_header : String :=
  "🔔 Reminder from Scheduler Bot 🔔 The following plan has expired. Forward the commands below to your main bot to process it."

/-- Embedding of alarm (bot.py lines 100 to 111): send three messages
through the dispatch sink in order; a failing send propagates as an
exception, so later sends and the database delete are not reached. Only
after all three sends succeed is the row removed from the store. The
sink is modelled as a boolean-returning function; the result is the new
store paired with whether the callback ran to completion. -/
def alarm (send : Int → String → Bool) (data : JobData) (store : List JobRecord) :
    List JobRecord × Bool :=
  if send data.chat_id reminder_header then
    if send data.chat_id data.command then
      if send data.chat_id data.details_command then
        (remove_schedule_from_db data.job_id store, true)
      else (store, false)
    else (store, false)
  else (store, false)

/-- The invalid-format reply of the schedule handler (bot.py lines 163
to 166). -/
def invalid_format_reply : String :=
  "Invalid format. Please use the format you get from the main bot: /schedule <seconds> /freecredential <user_id>"

/-- The confirmation reply of the schedule handler (bot.py line 159);
the timedelta rendering is modelled as the plain number of seconds. -/
def confirm_reply (delaySeconds : Int) : String :=
  "✅ Understood! I will remind you in " ++ toString delaySeconds ++ " seconds."

/-- Embedding of the schedule handler (bot.py lines 113 to 166).
Parameters: adminId is the ADMIN_USERID environment string, now the
current UTC time, freshId the uuid4 value generated at line 139, userId
the effective user id, args the parsed command arguments. Returns the
list of side effects in program order and the outcome. An unauthorized
user is silently dropped (line 120, log only). A wrong argument count,
an unparsable delay or an invalid command format all raise into the
except branch, which replies with the invalid-format message. On
success the timer is armed (line 142) and then the row is inserted
(line 156) and the confirmation reply sent (line 159). -/
def schedule (adminId : String) (now : Int) (freshId : String) (userId : Int)
    (args : List String) : List Effect × ScheduleOutcome :=
  if toString userId ≠ adminId then ([], .unauthorized)
  else
    match args with
    | [a0, a1, a2] =>
      match parseInt a0 with
      | none => ([.replyText invalid_format_reply], .parseError)
      | some delay_seconds =>
        if a1 = "/freecredential" && pyIsDigit a2 then
          let command_to_send := "/freecredential " ++ a2
          let details_command_to_send := "/seedetails " ++ a2
          let data : JobData :=
            ⟨userId, command_to_send, details_command_to_send, freshId⟩
          let timer : TimerEntry := ⟨freshId, delay_seconds, data⟩
          let run_at_time := now + delay_seconds
          let record : JobRecord :=
            ⟨freshId, userId, command_to_send, details_command_to_send, run_at_time⟩
          ([.armTimer timer, .insertStore record,
            .replyText (confirm_reply delay_seconds)],
           .scheduled record timer)
        else ([.replyText invalid_format_reply], .parseError)
    | _ => ([.replyText invalid_format_reply], .parseError)

/-- Embedding of the per-job recovery step inside main (bot.py lines
190 to 209): the remaining delay is run_at minus now, clamped to zero
when negative, and a timer is re-armed carrying the row data. -/
def recoverJob (now : Int) (r : JobRecord) : TimerEntry :=
  let delay := r.run_at - now
  let delay := if delay < 0 then 0 else delay
  ⟨r.job_id, delay, ⟨r.chat_id, r.command_to_send, r.details_command_to_send, r.job_id⟩⟩

/-- Embedding of the recovery scan of main (bot.py lines 184 to 213):
the pending rows are fetched through get_pending_schedules, evaluated
at the scan time, and each fetched row is re-armed via recoverJob,
evaluated at the (possibly slightly later) loop time now. -/
def restoreTimers (scanTime now : Int) (store : List JobRecord) : List TimerEntry :=
  (get_pending_schedules scanTime store).map (recoverJob now)

/-- The usage reply of set_reminder (bot1.py lines 39 and 61). -/
def usage_reply : String := "Usage: /set <seconds> <your message>"

/-- Embedding of set_reminder (bot1.py lines 33 to 61): fewer than two
arguments or an unparsable delay reply with the usage message; a delay
below one is rejected; otherwise a timer is armed with the joined
reminder text. -/
def set_reminder (chatId : Int) (args : List String) : ReminderOutcome :=
  if args.length < 2 then .usageError
  else
    match args with
    | [] => .usageError
    | a0 :: rest =>
      match parseInt a0 with
      | none => .usageError
      | some delay =>
        if delay < 1 then .delayTooSmall
        else .reminderSet chatId delay (String.intercalate " " rest)

/-- The single handler action the scheduler bot registers commands to. -/
inductive Handler where
  | scheduleHandler
deriving DecidableEq, Repr

/-- The command handlers registered by main (bot.py lines 216 to 217):
both the schedule and the start commands are bound to the schedule
handler; no other inbound operation exists. -/
def registeredHandlers : List (String × Handler) :=
  [("schedule", .scheduleHandler), ("start", .scheduleHandler)]

/-- True on a store-insert effect. -/
def isInsert : Effect → Bool
  | .insertStore _ => true
  | _ => false

/-- True on a timer-arm effect. -/
def isArm : Effect → Bool
  | .armTimer _ => true
  | _ => false

/-- The store insert occurs strictly before the timer arm in the
effect list. -/
def persistedBeforeArmed (es : List Effect) : Prop :=
  es.findIdx isInsert < es.findIdx isArm

/-- Case analysis of the schedule handler: every call either succeeds
with the fully determined effect list and outcome, or is silently
dropped as unauthorized, or replies with the invalid-format message. -/
lemma schedule_cases (adminId : String) (now : Int) (freshId : String) (userId : Int)
    (args : List String) :
    (∃ a0 a1 a2 d, args = [a0, a1, a2] ∧ parseInt a0 = some d ∧
      a1 = "/freecredential" ∧ pyIsDigit a2 = true ∧ toString userId = adminId ∧
      schedule adminId now freshId userId args =
        ([.armTimer ⟨freshId, d, ⟨userId, "/freecredential " ++ a2, "/seedetails " ++ a2, freshId⟩⟩,
          .insertStore ⟨freshId, userId, "/freecredential " ++ a2, "/seedetails " ++ a2, now + d⟩,
          .replyText (confirm_reply d)],
         .scheduled ⟨freshId, userId, "/freecredential " ++ a2, "/seedetails " ++ a2, now + d⟩
           ⟨freshId, d, ⟨userId, "/freecredential " ++ a2, "/seedetails " ++ a2, freshId⟩⟩)) ∨
    schedule adminId now freshId userId args = ([], .unauthorized) ∨
    schedule adminId now freshId userId args = ([.replyText invalid_format_reply], .parseError) := by
  by_cases hauth : toString userId ≠ adminId
  · right; left
    simp [schedule, hauth]
  · push_neg at hauth
    match args with
    | [] => right; right; simp [schedule, hauth]
    | [a0] => right; right; simp [schedule, hauth]
    | [a0, a1] => right; right; simp [schedule, hauth]
    | a0 :: a1 :: a2 :: a3 :: rest => right; right; simp [schedule, hauth]
    | [a0, a1, a2] =>
      cases hp : parseInt a0 with
      | none => right; right; simp [schedule, hauth, hp]
      | some d =>
        by_cases hfmt : (a1 = "/freecredential" && pyIsDigit a2) = true
        · left
          rw [Bool.and_eq_true, decide_eq_true_eq] at hfmt
          refine ⟨a0, a1, a2, d, rfl, hp, hfmt.1, hfmt.2, hauth, ?_⟩
          simp [schedule, hauth, hp, hfmt.1, hfmt.2]
        · right; right
          have hb : (a1 = "/freecredential" && pyIsDigit a2) = false :=
            Bool.eq_false_iff.mpr hfmt
          simp [schedule, hauth, hp, hb]

/-- Deleting a job id twice from the store leaves the same store as
deleting it once. -/
lemma remove_schedule_from_db_idem (jobId : String) (store : List JobRecord) :
    remove_schedule_from_db jobId (remove_schedule_from_db jobId store) =
      remove_schedule_from_db jobId store := by
  unfold remove_schedule_from_db
  induction store with
  | nil => rfl
  | cons r rest ih =>
    by_cases hr : r.job_id = jobId
    · simp [hr, ih]
    · simp [hr, ih]

/-- Deleting an absent job id from the store is a no-op. -/
lemma remove_schedule_from_db_noop (jobId : String) (store : List JobRecord)
    (h : ∀ r ∈ store, r.job_id ≠ jobId) :
    remove_schedule_from_db jobId store = store := by
  unfold remove_schedule_from_db
  induction store with
  | nil => rfl
  | cons r rest ih =>
    have hr := h r (by simp)
    have hrest : ∀ s ∈ rest, s.job_id ≠ jobId := fun s hs => h s (by simp [hs])
    simp [hr, ih hrest]
    exact hrest

/-- The remaining delay computed by the recovery step equals the zero
floor of run_at minus now. -/
lemma recoverJob_whenDelay (now : Int) (r : JobRecord) :
    (recoverJob now r).whenDelay = max 0 (r.run_at - now) := by
  simp only [recoverJob]
  split <;> omega

/-- Claim C1: with one job pending in the store whose run_at (5) is
already in the past at restart time (10), the recovery scan re-arms
zero timers instead of the one required timer with zero delay: the
filtered accessor get_pending_schedules silently drops overdue jobs. -/
theorem C1_overdue_job_dropped :
    restoreTimers 10 10 [⟨"j1", 1, "/freecredential 7", "/seedetails 7", 5⟩] = [] ∧
    (restoreTimers 10 10 [⟨"j1", 1, "/freecredential 7", "/seedetails 7", 5⟩]).length ≠
      [(⟨"j1", 1, "/freecredential 7", "/seedetails 7", 5⟩ : JobRecord)].length := by
  constructor
  · rfl
  · decide

/-- Claim C2: the general list-pending accessor, queried at time asOf,
returns exactly the stored records whose run_at is strictly greater
than asOf. -/
theorem C2_list_pending_strictly_future (asOf : Int) (store : List JobRecord) (r : JobRecord) :
    r ∈ get_pending_schedules asOf store ↔ r ∈ store ∧ asOf < r.run_at := by
  simp [get_pending_schedules, List.mem_filter, decide_eq_true_eq]

/-- Claim C5: every timer re-armed by the recovery scan belongs to a
stored record and carries delay max(0, run_at minus now): a record with
past run_at that is processed gets delay exactly zero, and a future one
gets its remaining time, not its original submission delay. -/
theorem C5_recovery_delay_zero_floor (scanTime now : Int) (store : List JobRecord)
    (e : TimerEntry) (he : e ∈ restoreTimers scanTime now store) :
    ∃ r ∈ store, e.name = r.job_id ∧ e.whenDelay = max 0 (r.run_at - now) := by
  simp only [restoreTimers, get_pending_schedules, List.mem_map, List.mem_filter] at he
  obtain ⟨r, ⟨hr, _⟩, rfl⟩ := he
  exact ⟨r, hr, rfl, recoverJob_whenDelay now r⟩

/-- Witness for claim C5 at a concrete store: one record with run_at 30
recovered at now 10 is re-armed with delay 20 = max 0 (30 - 10). -/
theorem C5_recovery_delay_zero_floor_witness :
    ∃ r ∈ [(⟨"j", 2, "/freecredential 9", "/seedetails 9", 30⟩ : JobRecord)],
      (TimerEntry.mk "j" 20 ⟨2, "/freecredential 9", "/seedetails 9", "j"⟩).name = r.job_id ∧
      (TimerEntry.mk "j" 20 ⟨2, "/freecredential 9", "/seedetails 9", "j"⟩).whenDelay =
        max 0 (r.run_at - 10) :=
  C5_recovery_delay_zero_floor 5 10
    [⟨"j", 2, "/freecredential 9", "/seedetails 9", 30⟩]
    ⟨"j", 20, ⟨2, "/freecredential 9", "/seedetails 9", "j"⟩⟩ (by decide)

/-- Claim C6: the fire callback deletes the row only after all three
dispatch sends have completed successfully; if any send fails, the
delete is not reached and the store is unchanged. -/
theorem C6_delete_only_after_dispatch (send : Int → String → Bool) (data : JobData)
    (store : List JobRecord) :
    ((alarm send data store).2 = false → (alarm send data store).1 = store) ∧
    ((alarm send data store).2 = true →
      (alarm send data store).1 = remove_schedule_from_db data.job_id store) := by
  unfold alarm
  split_ifs <;> simp

/-- Witness for claim C6 at a concrete failing sink: the store keeps
its single record when every send fails. -/
theorem C6_delete_only_after_dispatch_witness :
    (alarm (fun _ _ => false) ⟨1, "/freecredential 7", "/seedetails 7", "j"⟩
        [⟨"j", 1, "/freecredential 7", "/seedetails 7", 5⟩]).1 =
      [⟨"j", 1, "/freecredential 7", "/seedetails 7", 5⟩] :=
  (C6_delete_only_after_dispatch (fun _ _ => false)
    ⟨1, "/freecredential 7", "/seedetails 7", "j"⟩
    [⟨"j", 1, "/freecredential 7", "/seedetails 7", 5⟩]).1 rfl

/-- Claim C7: the store delete is idempotent: deleting an id that is
not present is a no-op, and deleting twice equals deleting once. -/
theorem C7_delete_idempotent (jobId : String) (store : List JobRecord) :
    ((∀ r ∈ store, r.job_id ≠ jobId) → remove_schedule_from_db jobId store = store) ∧
    remove_schedule_from_db jobId (remove_schedule_from_db jobId store) =
      remove_schedule_from_db jobId store :=
  ⟨remove_schedule_from_db_noop jobId store, remove_schedule_from_db_idem jobId store⟩

/-- Witness for claim C7: deleting the absent id a from a store holding
only id b leaves the store unchanged. -/
theorem C7_delete_idempotent_witness :
    remove_schedule_from_db "a" [⟨"b", 1, "/freecredential 7", "/seedetails 7", 5⟩] =
      [⟨"b", 1, "/freecredential 7", "/seedetails 7", 5⟩] :=
  (C7_delete_idempotent "a" [⟨"b", 1, "/freecredential 7", "/seedetails 7", 5⟩]).1
    (by decide)

/-- Claim C3 counterexample: on a concrete successful submission the
handler arms the timer first (effect index 0) and inserts the store
record only afterwards (effect index 1), so the store insert does not
precede the timer arm. -/
theorem C3_insert_does_not_precede_arm :
    (schedule "1" 100 "j" 1 ["5", "/freecredential", "7"]).2 =
      .scheduled ⟨"j", 1, "/freecredential 7", "/seedetails 7", 105⟩
        ⟨"j", 5, ⟨1, "/freecredential 7", "/seedetails 7", "j"⟩⟩ ∧
    ¬ persistedBeforeArmed (schedule "1" 100 "j" 1 ["5", "/freecredential", "7"]).1 := by
  constructor
  · rfl
  · unfold persistedBeforeArmed
    decide

/-- Claim C3 amended: on every successful submission the handler emits
exactly three effects in order, arming the timer first, then inserting
the store record, then replying; the timer and the record share the
fresh job id. -/
theorem C3_arm_then_insert (adminId : String) (now : Int) (freshId : String)
    (userId : Int) (args : List String) (record : JobRecord) (timer : TimerEntry)
    (h : (schedule adminId now freshId userId args).2 = .scheduled record timer) :
    ∃ d, (schedule adminId now freshId userId args).1 =
      [.armTimer timer, .insertStore record, .replyText (confirm_reply d)] ∧
      timer.name = record.job_id := by
  rcases schedule_cases adminId now freshId userId args with
    ⟨a0, a1, a2, d, harg, hp, h1, h2, h3, heq⟩ | heq | heq
  · rw [heq] at h
    simp only [ScheduleOutcome.scheduled.injEq] at h
    obtain ⟨hR, hT⟩ := h
    subst hR
    subst hT
    exact ⟨d, by rw [heq], rfl⟩
  · rw [heq] at h
    simp at h
  · rw [heq] at h
    simp at h

/-- Witness for claim C3 amended at a concrete successful submission. -/
theorem C3_arm_then_insert_witness :
    ∃ d, (schedule "9" 0 "k" 9 ["3", "/freecredential", "42"]).1 =
      [.armTimer ⟨"k", 3, ⟨9, "/freecredential 42", "/seedetails 42", "k"⟩⟩,
       .insertStore ⟨"k", 9, "/freecredential 42", "/seedetails 42", 3⟩,
       .replyText (confirm_reply d)] ∧
      (TimerEntry.mk "k" 3 ⟨9, "/freecredential 42", "/seedetails 42", "k"⟩).name =
        (JobRecord.mk "k" 9 "/freecredential 42" "/seedetails 42" 3).job_id :=
  C3_arm_then_insert "9" 0 "k" 9 ["3", "/freecredential", "42"]
    ⟨"k", 9, "/freecredential 42", "/seedetails 42", 3⟩
    ⟨"k", 3, ⟨9, "/freecredential 42", "/seedetails 42", "k"⟩⟩ rfl

/-- Claim C4 counterexample: a submission with delay -5 passes every
validation of the schedule handler, arms a timer with when value -5 and
inserts a store record with run_at five seconds in the past, instead of
being rejected with no state created. -/
theorem C4_negative_delay_not_rejected :
    (schedule "1" 100 "j" 1 ["-5", "/freecredential", "7"]).2 =
      .scheduled ⟨"j", 1, "/freecredential 7", "/seedetails 7", 95⟩
        ⟨"j", -5, ⟨1, "/freecredential 7", "/seedetails 7", "j"⟩⟩ ∧
    Effect.insertStore ⟨"j", 1, "/freecredential 7", "/seedetails 7", 95⟩ ∈
      (schedule "1" 100 "j" 1 ["-5", "/freecredential", "7"]).1 ∧
    Effect.armTimer ⟨"j", -5, ⟨1, "/freecredential 7", "/seedetails 7", "j"⟩⟩ ∈
      (schedule "1" 100 "j" 1 ["-5", "/freecredential", "7"]).1 := by
  refine ⟨rfl, ?_, ?_⟩ <;> decide

/-- Claim C4 amended: the bot.py schedule handler performs no sign
check, so an authorized well-formed request with any negative parsed
delay d creates a job (record with run_at = now + d inserted, timer
armed with delay d); only the bot1.py set_reminder handler rejects a
delay below one without arming anything. -/
theorem C4_negative_delay_split (adminId : String) (now : Int) (freshId : String)
    (userId : Int) (a0 t : String) (d : Int) (chatId : Int) (rest : List String)
    (hauth : toString userId = adminId) (hp : parseInt a0 = some d) (hd : d < 0)
    (ht : pyIsDigit t = true) (hrest : rest ≠ []) :
    (schedule adminId now freshId userId [a0, "/freecredential", t]).2 =
      .scheduled ⟨freshId, userId, "/freecredential " ++ t, "/seedetails " ++ t, now + d⟩
        ⟨freshId, d, ⟨userId, "/freecredential " ++ t, "/seedetails " ++ t, freshId⟩⟩ ∧
    set_reminder chatId (a0 :: rest) = .delayTooSmall := by
  constructor
  · simp [schedule, hauth, hp, ht]
  · obtain ⟨b, bs, rfl⟩ : ∃ b bs, rest = b :: bs := by
      cases rest with
      | nil => exact absurd rfl hrest
      | cons b bs => exact ⟨b, bs, rfl⟩
    have hd1 : d < 1 := by omega
    simp [set_reminder, hp, hd1]

/-- Witness for claim C4 amended at concrete inputs: delay -3 creates a
job in the scheduler bot, while bot1 rejects -3. -/
theorem C4_negative_delay_split_witness :
    (schedule "2" 50 "w" 2 ["-3", "/freecredential", "8"]).2 =
      .scheduled ⟨"w", 2, "/freecredential " ++ "8", "/seedetails " ++ "8", 50 + -3⟩
        ⟨"w", -3, ⟨2, "/freecredential " ++ "8", "/seedetails " ++ "8", "w"⟩⟩ ∧
    set_reminder 5 ["-3", "msg"] = .delayTooSmall :=
  C4_negative_delay_split "2" 50 "w" 2 "-3" "8" (-3) 5 ["msg"]
    (by decide) (by decide) (by decide) (by decide) (by decide)

/-- Claim C8 counterexample: no registered inbound operation is named
cancel; the program offers no cancellation entry point. -/
theorem C8_no_cancel_operation :
    ¬ ∃ p ∈ registeredHandlers, p.1 = "cancel" := by
  decide

/-- Claim C8 amended: the only registered commands are schedule and
start, both bound to the submission handler, so no Cancel operation is
exposed; the only store removal primitive, the delete used after
dispatch, is idempotent. -/
theorem C8_handlers_schedule_only :
    registeredHandlers.map Prod.fst = ["schedule", "start"] ∧
    registeredHandlers.map Prod.snd = [Handler.scheduleHandler, Handler.scheduleHandler] ∧
    (∀ jobId (store : List JobRecord),
      remove_schedule_from_db jobId (remove_schedule_from_db jobId store) =
        remove_schedule_from_db jobId store) :=
  ⟨rfl, rfl, remove_schedule_from_db_idem⟩

/-- Claim C9 counterexample: an unauthorized request is dropped with an
empty effect list: no state is mutated but no error is surfaced to the
caller either (the handler only logs and returns). -/
theorem C9_unauthorized_silently_dropped :
    schedule "1" 0 "j" 2 ["5", "/freecredential", "7"] = ([], .unauthorized) ∧
    ¬ ∃ m, Effect.replyText m ∈ (schedule "1" 0 "j" 2 ["5", "/freecredential", "7"]).1 := by
  refine ⟨rfl, ?_⟩
  rintro ⟨m, hm⟩
  rw [show (schedule "1" 0 "j" 2 ["5", "/freecredential", "7"]).1 = [] from rfl] at hm
  simp at hm

/-- Claim C9 amended: every failing request mutates no state: the
unauthorized path produces no effects at all (silently dropped, no
reply), the parse-error path produces exactly the invalid-format reply,
and any insert or arm effect can only occur on a successful outcome. -/
theorem C9_error_paths_mutate_nothing (adminId : String) (now : Int) (freshId : String)
    (userId : Int) (args : List String) :
    ((schedule adminId now freshId userId args).2 = .unauthorized →
      (schedule adminId now freshId userId args).1 = []) ∧
    ((schedule adminId now freshId userId args).2 = .parseError →
      (schedule adminId now freshId userId args).1 = [.replyText invalid_format_reply]) ∧
    (∀ e ∈ (schedule adminId now freshId userId args).1,
      (isInsert e || isArm e) = true →
        ∃ record timer,
          (schedule adminId now freshId userId args).2 = .scheduled record timer) := by
  rcases schedule_cases adminId now freshId userId args with
    ⟨a0, a1, a2, d, harg, hp, h1, h2, h3, heq⟩ | heq | heq
  · refine ⟨?_, ?_, ?_⟩
    · rw [heq]; intro h; simp at h
    · rw [heq]; intro h; simp at h
    · intro e he hins
      exact ⟨_, _, by rw [heq]⟩
  · refine ⟨fun _ => by rw [heq], ?_, ?_⟩
    · rw [heq]; intro h; simp at h
    · rw [heq]; intro e he; simp at he
  · refine ⟨?_, fun _ => by rw [heq], ?_⟩
    · rw [heq]; intro h; simp at h
    · rw [heq]; intro e he hins
      simp at he
      subst he
      simp [isInsert, isArm] at hins

/-- Witness for claim C9 amended: a malformed single-argument request
from the admin yields exactly the invalid-format reply. -/
theorem C9_error_paths_mutate_nothing_witness :
    (schedule "2" 0 "q" 2 ["x"]).1 = [.replyText invalid_format_reply] :=
  (C9_error_paths_mutate_nothing "2" 0 "q" 2 ["x"]).2.1 rfl

/-- Claim C10: every record a successful submission inserts carries the
two companion command strings built from one all-digits target id, and
its chat_id is the submitting user, who matches the admin id. -/
theorem C10_payload_shape (adminId : String) (now : Int) (freshId : String)
    (userId : Int) (args : List String) (record : JobRecord) (timer : TimerEntry)
    (h : (schedule adminId now freshId userId args).2 = .scheduled record timer) :
    ∃ t, pyIsDigit t = true ∧
      record.command_to_send = "/freecredential " ++ t ∧
      record.details_command_to_send = "/seedetails " ++ t ∧
      record.chat_id = userId ∧ toString userId = adminId := by
  rcases schedule_cases adminId now freshId userId args with
    ⟨a0, a1, a2, d, harg, hp, h1, h2, h3, heq⟩ | heq | heq
  · rw [heq] at h
    simp only [ScheduleOutcome.scheduled.injEq] at h
    obtain ⟨hR, hT⟩ := h
    subst hR
    exact ⟨a2, h2, rfl, rfl, rfl, h3⟩
  · rw [heq] at h
    simp at h
  · rw [heq] at h
    simp at h

/-- Witness for claim C10 at a concrete successful submission. -/
theorem C10_payload_shape_witness :
    ∃ t, pyIsDigit t = true ∧
      (JobRecord.mk "m" 4 "/freecredential 123" "/seedetails 123" 106).command_to_send =
        "/freecredential " ++ t ∧
      (JobRecord.mk "m" 4 "/freecredential 123" "/seedetails 123" 106).details_command_to_send =
        "/seedetails " ++ t ∧
      (JobRecord.mk "m" 4 "/freecredential 123" "/seedetails 123" 106).chat_id = 4 ∧
      toString (4 : Int) = "4" :=
  C10_payload_shape "4" 100 "m" 4 ["6", "/freecredential", "123"]
    ⟨"m", 4, "/freecredential 123", "/seedetails 123", 106⟩
    ⟨"m", 6, ⟨4, "/freecredential 123", "/seedetails 123", "m"⟩⟩ rfl
